import Mathlib

/-!
Verification of the Google-reviews scraper engine against its
specification. The definitions below are a shallow embedding of
`src/working_scraper.py` (the engine the spec describes), of the
location-deduplication pass of `src/simple_maps_scraper.py`, and of the
CSV import path (`backend/main.py`, `src/csv_analyzer.py`). Browser
interaction is abstracted to the outcomes the page hands back: for each
CSS-selector lookup the element text when `find_element` succeeds, or
`none` when it throws.
-/

namespace GoogleReviews

/-- A scraped review record, as built by `extract_single_review`
(src/working_scraper.py, the dict at lines 314-320). -/
structure Record where
  reviewer_name : String
  shop_name : String
  rating : Nat
  review_text : String
  review_date : String
  deriving Repr, DecidableEq

/-- One candidate review container (a DOM subtree), abstracted to the
outcomes of the lookups `extract_single_review` performs on it: for each
selector of a strategy chain, `some t` is the text of the element
`find_element` returned, and `none` means the lookup threw. `ratingAria`
is the aria-label of the star image, `dateText` the text of the date
element (a single combined selector in the source). -/
structure Container where
  nameTexts : List (Option String)
  ratingAria : Option String
  textTexts : List (Option String)
  dateText : Option String
  deriving Repr, DecidableEq

/-- Python `str.strip()`: drop leading and trailing whitespace. Defined
over the character list so that concrete values compute. -/
def pystrip (s : String) : String :=
  String.mk (((s.data.dropWhile Char.isWhitespace).reverse.dropWhile Char.isWhitespace).reverse)

/-- Python `str.lower()`: case-fold every character. Defined over the
character list so that concrete values compute. -/
def pylower (s : String) : String :=
  String.mk (s.data.map Char.toLower)

/-- The fall-through strategy-chain loop of `extract_single_review`: each
successful lookup overwrites the current value with the stripped element
text, and the loop breaks as soon as the acceptance test passes
(`if name and len(name) > 1 ...: break`); a lookup that throws is
skipped. The value left by the last successful lookup survives the loop
even when the acceptance test never passed it. -/
def chainLoop (accept : String → Bool) : List (Option String) → Option String → Option String
  | [], cur => cur
  | none :: rest, cur => chainLoop accept rest cur
  | some t :: rest, _cur =>
      let v := pystrip t
      if accept v then some v else chainLoop accept rest (some v)

/-- Acceptance test of the reviewer-name chain:
`name and len(name) > 1 and name.lower() not in ['google user', 'user']`. -/
def nameAccept (s : String) : Bool :=
  !(s == "") && s.length > 1 && !(pylower s == "google user") && !(pylower s == "user")

/-- Acceptance test of the review-text chain: `text and len(text) > 10`. -/
def textAccept (s : String) : Bool :=
  !(s == "") && s.length > 10

/-- The value of the Python expression `10 * n + digit` folded over a digit
run: `int(...)` applied to the run. -/
def digitsToNat (ds : List Char) : Nat :=
  ds.foldl (fun n c => 10 * n + (c.toNat - 48)) 0

/-- Helper for `firstDigitRun`: scan for the first decimal digit and read
the maximal run starting there. -/
def firstDigitRunAux : List Char → Option Nat
  | [] => none
  | c :: rest =>
      if c.isDigit then some (digitsToNat (c :: rest.takeWhile Char.isDigit))
      else firstDigitRunAux rest

/-- `re.search(r'(\d+)', s)` followed by `int(match.group(1))`: the first
maximal run of decimal digits in `s` as a number, `none` when `s` holds no
digit. -/
def firstDigitRun (s : String) : Option Nat :=
  firstDigitRunAux s.toList

/-- The `name` variable after the loop over the seven name selectors of
`extract_single_review`. -/
def resolveName (c : Container) : Option String :=
  chainLoop nameAccept c.nameTexts none

/-- The `text` variable after the loop over the four text selectors. -/
def resolveText (c : Container) : Option String :=
  chainLoop textAccept c.textTexts none

/-- The `rating` variable after the rating block: `none` when the star
image lookup threw or its aria-label holds no digit. -/
def resolveRating (c : Container) : Option Nat :=
  c.ratingAria.bind firstDigitRun

/-- The `date` variable: the stripped text of the date element when the
lookup succeeds, and the fixed placeholder "Recent" when it throws. -/
def resolveDate (c : Container) : String :=
  match c.dateText with
  | some t => pystrip t
  | none => "Recent"

/-- `extract_single_review` (src/working_scraper.py lines 254-323): resolve
name, rating, text and date in that order; a falsy name (`None` or the
empty string), falsy rating (`None` or 0) or falsy text rejects the
container, date never does. -/
def extract_single_review (shop : String) (c : Container) : Option Record :=
  match resolveName c with
  | none => none
  | some name =>
      if name = "" then none
      else
        match resolveRating c with
        | none => none
        | some rating =>
            if rating = 0 then none
            else
              match resolveText c with
              | none => none
              | some text =>
                  if text = "" then none
                  else
                    some { reviewer_name := name, shop_name := shop, rating := rating,
                           review_text := text, review_date := resolveDate c }

/-- The container loop of `extract_all_reviews` (lines 238-250): `n` is
`len(reviews)` accumulated so far, the hard cap of 500 is checked at the
top of each iteration, and a rejected container is skipped without
aborting the loop. -/
def extractLoop (shop : String) : List Container → Nat → List Record
  | [], _ => []
  | c :: rest, n =>
      if 500 ≤ n then []
      else
        match extract_single_review shop c with
        | some r => r :: extractLoop shop rest (n + 1)
        | none => extractLoop shop rest n

/-- `extract_all_reviews` (lines 213-252), abstracted over the container
snapshot the page lookup returned. -/
def extract_all_reviews (shop : String) (containers : List Container) : List Record :=
  extractLoop shop containers 0

/-- Modelled from the spec: the dedupe key of a Record, "a fingerprint
derived from normalized identity + normalized text" (spec section 3). The
source has no such computation; this definition exists to compare the
claimed deduplication with the code. -/
def specDedupeKey (r : Record) : String × String :=
  (r.reviewer_name, r.review_text)

/-- `self.business_info` as set at lines 61-65; the `scraped_at` timestamp
is elided. `none` models the empty dict. -/
structure BusinessInfo where
  name : String
  url : String
  deriving Repr, DecidableEq

/-- The mutable state of a `WorkingScraper` instance (lines 18-21). Log
entries are modelled by their message text, timestamps elided. -/
structure ScraperState where
  reviews_data : List Record
  business_info : Option BusinessInfo
  debug_messages : List String
  deriving Repr, DecidableEq

/-- `self.log(message)` (lines 23-27): append to the debug log. -/
def logMsg (st : ScraperState) (m : String) : ScraperState :=
  { st with debug_messages := st.debug_messages ++ [m] }

/-- `clear_data` (lines 325-328). -/
def clear_data (st : ScraperState) : ScraperState :=
  { st with reviews_data := [], business_info := none, debug_messages := [] }

/-- The exceptions the try block of `scrape_reviews` can raise: driver
setup failing, `driver.get` failing on an unreachable URL, or a WebDriver
fault during the scroll/extraction phase. -/
inductive ScrapeExn
  | setupFailed
  | navFailed
  | midFailed
  deriving Repr, DecidableEq

/-- The text `str(e)` of an exception, abstracted per kind. -/
def exnMsg : ScrapeExn → String
  | .setupFailed => "chrome setup failed"
  | .navFailed => "navigation failed"
  | .midFailed => "webdriver fault"

/-- One scrape call's interaction with the outside world: whether driver
setup succeeds, whether navigation succeeds, the h1 lookup outcome
(`none` = the lookup threw), whether a Reviews tab was found and clicked,
whether the scroll/extraction phase raises, and the container snapshot
`find_elements` returns afterwards. -/
structure ScrapeEnv where
  setup_ok : Bool
  nav_ok : Bool
  h1Text : Option String
  tab_found : Bool
  phase_ok : Bool
  containers : List Container
  deriving Repr, DecidableEq

/-- `get_business_name` (lines 93-99): the stripped h1 text, or the fixed
placeholder "Unknown Business" when the lookup throws. -/
def get_business_name (h1Text : Option String) : String :=
  match h1Text with
  | some t => pystrip t
  | none => "Unknown Business"

/-- The try block of `scrape_reviews` (lines 48-84), starting from the
freshly reset state `st0`: the state it leaves, whether a driver was
assigned (so the `finally` will quit it), and its outcome — a returned
list or a raised exception. -/
def scrapeTry (st0 : ScraperState) (env : ScrapeEnv) (url : String) (maxReviews : Nat) :
    ScraperState × Bool × Except ScrapeExn (List Record) :=
  let st := logMsg st0 ("🚀 Starting scrape: " ++ url)
  if env.setup_ok = false then
    (st, false, .error .setupFailed)
  else
    let st := logMsg st "✅ Chrome ready"
    if env.nav_ok = false then
      (st, true, .error .navFailed)
    else
      let businessName := get_business_name env.h1Text
      let st := { st with business_info := some ⟨businessName, url⟩ }
      let st := logMsg st ("🏢 Business: " ++ businessName)
      if env.tab_found then
        if env.phase_ok = false then
          (st, true, .error .midFailed)
        else
          let reviews := extract_all_reviews businessName env.containers
          if reviews.isEmpty then
            (logMsg st "❌ No reviews extracted", true, .ok [])
          else
            let kept := reviews.take maxReviews
            let st := { st with reviews_data := kept }
            let st := logMsg st ("✅ Extracted " ++ toString kept.length ++ " reviews!")
            (st, true, .ok kept)
      else
        (logMsg st "❌ No reviews extracted", true, .ok [])

/-- The `except Exception: return []` handler of `scrape_reviews`: a raised
exception becomes a normal empty return. -/
def handleExn (body : Except ScrapeExn (List Record)) : List Record :=
  match body with
  | .ok r => r
  | .error _ => []

/-- The observable outcome of one `scrape_reviews` call: the final instance
state, the value returned to the caller (always a normal return — the bare
`except` clause converts every exception), and how many times
`driver.quit()` ran. -/
structure ScrapeResult where
  state : ScraperState
  result : Except ScrapeExn (List Record)
  quitCalls : Nat
  deriving Repr

/-- `scrape_reviews` (src/working_scraper.py lines 43-91): lines 44-46
reset every field of the instance state `s` before any work, then the try
body runs, the `except Exception` handler maps any exception to `return
[]`, and the `finally` block quits the driver exactly when one was
assigned. -/
def scrape_reviews (s : ScraperState) (env : ScrapeEnv) (url : String) (maxReviews : Nat) :
    ScrapeResult :=
  let st0 : ScraperState :=
    { s with reviews_data := [], business_info := none, debug_messages := [] }
  let out := scrapeTry st0 env url maxReviews
  { state :=
      match out.2.2 with
      | .ok _ => out.1
      | .error e => logMsg out.1 ("❌ Error: " ++ exnMsg e)
  , result := .ok (handleExn out.2.2)
  , quitCalls := if out.2.1 then 1 else 0 }

/-- The list the caller receives from a `scrape_reviews` call. -/
def returnedRecords (r : ScrapeResult) : List Record :=
  match r.result with
  | .ok l => l
  | .error _ => []

/-- `max_scrolls = min(60, max(25, max_reviews // 8))`
(src/working_scraper.py line 160). -/
def maxScrolls (maxReviews : Nat) : Nat :=
  min 60 (max 25 (maxReviews / 8))

/-- The two break conditions checked, in order, at the end of one scroll
round of `scroll_to_load_reviews` (lines 198-205): target reached, or a
late round (0-based index above 15) still observing fewer than 10
reviews. `page i` is the review count observed in round `i`. -/
def scrollStops (page : Nat → Nat) (maxReviews i : Nat) : Prop :=
  maxReviews ≤ page i ∨ (15 < i ∧ page i < 10)

instance (page : Nat → Nat) (maxReviews i : Nat) : Decidable (scrollStops page maxReviews i) := by
  unfold scrollStops
  infer_instance

/-- The scroll loop of `scroll_to_load_reviews`, counting executed rounds:
`fuel` rounds remain before the `range(max_scrolls)` bound, the current
0-based round index is `i`, and a round on which a break fires still
counts as executed. -/
def scrollRoundsFrom (page : Nat → Nat) (maxReviews : Nat) : Nat → Nat → Nat
  | 0, _ => 0
  | fuel + 1, i =>
      if maxReviews ≤ page i then 1
      else if 15 < i ∧ page i < 10 then 1
      else 1 + scrollRoundsFrom page maxReviews fuel (i + 1)

/-- `scroll_to_load_reviews` (lines 155-211), abstracted to the number of
scroll rounds it executes against the observed count trace `page`. -/
def scroll_to_load_reviews (page : Nat → Nat) (maxReviews : Nat) : Nat :=
  scrollRoundsFrom page maxReviews (maxScrolls maxReviews) 0

/-- A candidate container of `extract_reviews_direct`
(src/simple_maps_scraper.py), abstracted to its screen location; `none`
models `container.location` throwing. -/
structure MapsContainer where
  location : Option (Int × Int)
  deriving Repr, DecidableEq

/-- The duplicate-removal pass of `extract_reviews_direct`
(src/simple_maps_scraper.py lines 276-288): keep a container only when its
location is readable, not yet seen, and not (0, 0). -/
def uniqueByLocation : List MapsContainer → List (Int × Int) → List MapsContainer
  | [], _ => []
  | c :: rest, seen =>
      match c.location with
      | none => uniqueByLocation rest seen
      | some l =>
          if l ∉ seen ∧ l ≠ (0, 0) then c :: uniqueByLocation rest (l :: seen)
          else uniqueByLocation rest seen

/-- One parsed CSV row as `upload_csv` (src/backend/main.py lines 26-46)
reads it, restricted to the columns the endpoints touch. -/
structure CsvRow where
  title : String
  stars : Int
  url : String
  text : String
  deriving Repr, DecidableEq

/-- The analyzer state `upload_csv` and `load_json_data` mutate: the loaded
dataframe and the business name. -/
structure AnalyzerState where
  df : Option (List CsvRow)
  business_name : String
  deriving Repr, DecidableEq

/-- `upload_csv` (src/backend/main.py lines 26-46): stores the parsed rows
verbatim on the analyzer (`analyzer.df = df`) and derives the business
name from the first row; no row is validated or filtered. -/
def upload_csv (rows : List CsvRow) : AnalyzerState :=
  { df := some rows
  , business_name :=
      match rows with
      | [] => "Unknown Business"
      | r :: _ => r.title }

/-- One review object as `load_json_data` (src/csv_analyzer.py lines 36-67)
reads it: every field may be missing from the JSON. -/
structure ReviewJson where
  reviewer_name : Option String
  rating : Option Int
  review_text : Option String
  review_date : Option String
  deriving Repr, DecidableEq

/-- The row `load_json_data` builds from one review: `dict.get` defaults
only — a missing rating silently becomes 3, a missing text the empty
string; nothing is range-checked. -/
def jsonRow (binfoName binfoUrl : String) (j : ReviewJson) : CsvRow :=
  { title := binfoName
  , stars := j.rating.getD 3
  , url := binfoUrl
  , text := j.review_text.getD "" }

/-- `load_json_data`: maps every review to a row verbatim, stores the
dataframe, and reports success iff the list is non-empty. -/
def load_json_data (reviews : List ReviewJson) (binfoName binfoUrl : String) :
    AnalyzerState × Bool :=
  let df := reviews.map (jsonRow binfoName binfoUrl)
  ({ df := some df, business_name := binfoName }, !df.isEmpty)

/-- A container every strategy chain accepts cleanly (used as a concrete
input for witnesses). -/
def goodContainer : Container :=
  { nameTexts := [some "Alice Smith"]
  , ratingAria := some "5 stars"
  , textTexts := [some "Great food and lovely service!"]
  , dateText := none }

/-- The record `extract_single_review` yields on `goodContainer` under shop
name "Cafe". -/
def goodRecord : Record :=
  { reviewer_name := "Alice Smith", shop_name := "Cafe", rating := 5
  , review_text := "Great food and lovely service!", review_date := "Recent" }

/-- A container on which the claimed field invariants fail: the rating
aria-label parses to 6 and the text chain falls through, leaving a
5-character text that only the truthiness re-check sees. -/
def badContainer : Container :=
  { nameTexts := [some "Alice Smith"]
  , ratingAria := some "6 stars"
  , textTexts := [some "meh.."]
  , dateText := some " a week ago " }

/-- The record `extract_single_review` yields on `badContainer`. -/
def badRecord : Record :=
  { reviewer_name := "Alice Smith", shop_name := "Shop", rating := 6
  , review_text := "meh..", review_date := "a week ago" }

/-- A well-formed container used twice to model two DOM nodes rendering the
same review. -/
def dupContainer : Container :=
  { nameTexts := [some "Bob Jones"]
  , ratingAria := some "4 stars"
  , textTexts := [some "Absolutely wonderful experience"]
  , dateText := none }

/-- A CSV row violating both claimed field invariants: rating 7 and empty
review text. -/
def invalidRow : CsvRow :=
  { title := "Cafe", stars := 7, url := "http://x", text := "" }

/-- The empty instance state, as `__init__` builds it. -/
def initState : ScraperState :=
  { reviews_data := [], business_info := none, debug_messages := [] }

/-- An environment in which navigation to the URL fails after a successful
driver setup. -/
def navFailEnv : ScrapeEnv :=
  { setup_ok := true, nav_ok := false, h1Text := some "Cafe", tab_found := true
  , phase_ok := true, containers := [goodContainer] }

/-- An environment in which every h1 business-name strategy throws but the
rest of the scrape proceeds normally. -/
def noH1Env : ScrapeEnv :=
  { setup_ok := true, nav_ok := true, h1Text := none, tab_found := true
  , phase_ok := true, containers := [goodContainer] }

/-! ## Helper lemmas -/

/-- The try block assigns a driver exactly when setup succeeds, so the
`finally` block sees a non-None driver exactly then. -/
theorem scrapeTry_acquired (st0 : ScraperState) (env : ScrapeEnv) (url : String)
    (maxReviews : Nat) : (scrapeTry st0 env url maxReviews).2.1 = env.setup_ok := by
  unfold scrapeTry
  cases h : env.setup_ok
  · simp [h]
  · simp only [h]
    split_ifs <;> simp_all

/-- The extraction loop never accumulates past the hard cap of 500. -/
theorem extractLoop_length_le (shop : String) :
    ∀ (cs : List Container) (n : Nat), (extractLoop shop cs n).length ≤ 500 - n := by
  intro cs
  induction cs with
  | nil => intro n; simp [extractLoop]
  | cons c rest ih =>
      intro n
      unfold extractLoop
      split_ifs with h
      · simp
      · cases hx : extract_single_review shop c with
        | none => exact le_trans (ih n) (by omega)
        | some r =>
            simp only [List.length_cons]
            have := ih (n + 1)
            omega

/-- `extract_all_reviews` returns at most 500 records. -/
theorem extract_all_length_le (shop : String) (cs : List Container) :
    (extract_all_reviews shop cs).length ≤ 500 := by
  have h := extractLoop_length_le shop cs 0
  simpa [extract_all_reviews] using h

/-- The extraction loop yields at most one record per container. -/
theorem extractLoop_le_containers (shop : String) :
    ∀ (cs : List Container) (n : Nat), (extractLoop shop cs n).length ≤ cs.length := by
  intro cs
  induction cs with
  | nil => intro n; simp [extractLoop]
  | cons c rest ih =>
      intro n
      unfold extractLoop
      split_ifs with h
      · simp
      · cases hx : extract_single_review shop c with
        | none => exact le_trans (ih n) (by simp)
        | some r => simpa using ih (n + 1)

/-- Invariant of the location-deduplication pass: the retained containers
have pairwise-distinct locations, none of them already in `seen`. -/
theorem uniqueByLocation_invariant :
    ∀ (ms : List MapsContainer) (seen : List (Int × Int)),
      ((uniqueByLocation ms seen).map MapsContainer.location).Nodup ∧
        ∀ c ∈ uniqueByLocation ms seen, ∀ l, c.location = some l → l ∉ seen := by
  intro ms
  induction ms with
  | nil => intro seen; simp [uniqueByLocation]
  | cons c rest ih =>
      intro seen
      cases hl : c.location with
      | none =>
          simp only [uniqueByLocation, hl]
          exact ih seen
      | some l =>
          simp only [uniqueByLocation, hl]
          split_ifs with hcond
          · refine ⟨?_, ?_⟩
            · simp only [List.map_cons, List.nodup_cons]
              refine ⟨?_, (ih (l :: seen)).1⟩
              intro hmem
              rw [List.mem_map] at hmem
              obtain ⟨c2, hc2, hloc⟩ := hmem
              have hnot := (ih (l :: seen)).2 c2 hc2 l (by rw [hloc, hl])
              exact hnot (List.mem_cons_self _ _)
            · intro c2 hc2 l2 hl2
              rcases List.mem_cons.mp hc2 with rfl | hmem
              · rw [hl] at hl2
                injection hl2 with he
                subst he
                exact hcond.1
              · intro hin
                exact (ih (l :: seen)).2 c2 hmem l2 hl2 (List.mem_cons_of_mem _ hin)
          · exact ih seen

/-- Characterization of the scroll loop: it runs at most `fuel` rounds
starting at index `i`; no break condition held on any non-final executed
round; an exit before the fuel ran out happened on a round whose break
condition held. -/
theorem scrollRoundsFrom_spec (page : Nat → Nat) (maxReviews : Nat) :
    ∀ (fuel i : Nat),
      scrollRoundsFrom page maxReviews fuel i ≤ fuel ∧
        (∀ j, j + 1 < scrollRoundsFrom page maxReviews fuel i →
          ¬ scrollStops page maxReviews (i + j)) ∧
        (scrollRoundsFrom page maxReviews fuel i < fuel →
          0 < scrollRoundsFrom page maxReviews fuel i ∧
            scrollStops page maxReviews
              (i + (scrollRoundsFrom page maxReviews fuel i - 1))) := by
  intro fuel
  induction fuel with
  | zero => intro i; simp [scrollRoundsFrom]
  | succ fuel ih =>
      intro i
      unfold scrollRoundsFrom
      split_ifs with h1 h2
      · refine ⟨by omega, fun j hj => by omega, fun _ => ⟨by omega, ?_⟩⟩
        exact Or.inl h1
      · refine ⟨by omega, fun j hj => by omega, fun _ => ⟨by omega, ?_⟩⟩
        exact Or.inr h2
      · obtain ⟨hle, hnostop, hstop⟩ := ih (i + 1)
        refine ⟨by omega, ?_, ?_⟩
        · intro j hj
          match j with
          | 0 =>
              intro hcon
              rcases hcon with h | h
              · exact h1 h
              · exact h2 h
          | j + 1 =>
              have heq : i + (j + 1) = (i + 1) + j := by omega
              rw [heq]
              exact hnostop j (by omega)
        · intro hlt
          have hlt2 : scrollRoundsFrom page maxReviews fuel (i + 1) < fuel := by omega
          obtain ⟨hpos, hs⟩ := hstop hlt2
          refine ⟨by omega, ?_⟩
          have heq : i + (1 + scrollRoundsFrom page maxReviews fuel (i + 1) - 1) =
              (i + 1) + (scrollRoundsFrom page maxReviews fuel (i + 1) - 1) := by omega
          rw [heq]
          exact hs

/-- The try block ends in one of three ways: an exception, the `return []`
fall-through, or `return reviews[:max_reviews]`. -/
theorem scrapeTry_ok_shape (st0 : ScraperState) (env : ScrapeEnv) (url : String)
    (maxReviews : Nat) :
    (∃ e, (scrapeTry st0 env url maxReviews).2.2 = .error e) ∨
      (scrapeTry st0 env url maxReviews).2.2 = .ok [] ∨
      (scrapeTry st0 env url maxReviews).2.2 =
        .ok ((extract_all_reviews (get_business_name env.h1Text) env.containers).take maxReviews) := by
  rcases env with ⟨setup, nav, h1, tab, phase, conts⟩
  cases setup <;> cases nav <;> cases tab <;> cases phase <;>
      simp only [scrapeTry] <;> try split_ifs
  all_goals first
    | exact Or.inl ⟨_, rfl⟩
    | exact Or.inr (Or.inl rfl)
    | exact Or.inr (Or.inr rfl)

/-! ## Claim theorems -/

/-- C5: on every execution path of `scrape_reviews` on which a browser
session was acquired (driver setup succeeded) — normal completion, zero
valid records, or any exception raised in the pagination/extraction
phases — `driver.quit` runs exactly once, and it never runs when setup
itself failed. -/
theorem C5_release_exactly_once (s : ScraperState) (env : ScrapeEnv) (url : String)
    (maxReviews : Nat) :
    (scrape_reviews s env url maxReviews).quitCalls = if env.setup_ok then 1 else 0 := by
  have h : (scrape_reviews s env url maxReviews).quitCalls =
      if (scrapeTry (clear_data s) env url maxReviews).2.1 then 1 else 0 := rfl
  rw [h, scrapeTry_acquired]

/-- C10: `scrape_reviews` resets the accumulated records, business info and
telemetry log before any work, so its whole outcome — returned records,
final state, debug log — is the same whatever a previous call left on the
module-level singleton instance. -/
theorem C10_fresh_state (s1 s2 : ScraperState) (env : ScrapeEnv) (url : String)
    (maxReviews : Nat) :
    scrape_reviews s1 env url maxReviews = scrape_reviews s2 env url maxReviews ∧
      scrape_reviews s1 env url maxReviews = scrape_reviews initState env url maxReviews :=
  ⟨rfl, rfl⟩

/-- C1 (amended): no exception propagates out of `scrape_reviews`: the bare
`except Exception` clause converts every failure — driver setup,
navigation to an unreachable URL, a mid-scrape WebDriver fault — into a
normal empty return; the driver is quit whenever setup succeeded; in
particular a navigation failure yields the normal return `[]`, not a
raised error. -/
theorem C1_no_propagation (s : ScraperState) (env : ScrapeEnv) (url : String)
    (maxReviews : Nat) :
    (∃ l, (scrape_reviews s env url maxReviews).result = Except.ok l) ∧
      (scrape_reviews s env url maxReviews).quitCalls = (if env.setup_ok then 1 else 0) ∧
      (env.setup_ok = true → env.nav_ok = false →
        (scrape_reviews s env url maxReviews).result = Except.ok []) := by
  refine ⟨⟨handleExn (scrapeTry (clear_data s) env url maxReviews).2.2, rfl⟩, ?_, ?_⟩
  · have h : (scrape_reviews s env url maxReviews).quitCalls =
        if (scrapeTry (clear_data s) env url maxReviews).2.1 then 1 else 0 := rfl
    rw [h, scrapeTry_acquired]
  · intro hs hn
    have h : (scrape_reviews s env url maxReviews).result =
        Except.ok (handleExn (scrapeTry (clear_data s) env url maxReviews).2.2) := rfl
    have h2 : (scrapeTry (clear_data s) env url maxReviews).2.2 =
        Except.error ScrapeExn.navFailed := by
      unfold scrapeTry
      simp [hs, hn]
    rw [h, h2]
    rfl

/-- C1 counterexample: with driver setup succeeding and the URL
unreachable, the try body raises the navigation failure, yet the call
returns normally with the empty list instead of re-raising it. -/
theorem C1_counterexample :
    (scrapeTry initState navFailEnv "http://unreachable.example" 50).2.2 =
        Except.error ScrapeExn.navFailed ∧
      (scrape_reviews initState navFailEnv "http://unreachable.example" 50).result =
        Except.ok [] :=
  ⟨rfl, rfl⟩

/-- C6: for every scrape call with requested maximum `maxReviews`, the
returned record sequence has length at most `min maxReviews 500`: the
extraction loop enforces the global hard cap of 500 independent of the
request, and the call returns `reviews[:max_reviews]`. -/
theorem C6_output_bounded (s : ScraperState) (env : ScrapeEnv) (url : String)
    (maxReviews : Nat) :
    (returnedRecords (scrape_reviews s env url maxReviews)).length ≤ min maxReviews 500 := by
  have hr : returnedRecords (scrape_reviews s env url maxReviews) =
      handleExn (scrapeTry (clear_data s) env url maxReviews).2.2 := rfl
  rw [hr]
  rcases scrapeTry_ok_shape (clear_data s) env url maxReviews with ⟨e, he⟩ | he | he <;>
      rw [he] <;> simp [handleExn, List.length_take]
  have hcap := extract_all_length_le (get_business_name env.h1Text) env.containers
  omega

/-- C2 (amended): every Record `extract_single_review` accepts has a
positive integer rating, a non-empty reviewer name and a non-empty review
text — the code re-checks only Python truthiness after each strategy
chain, so neither the upper bound 5 on the rating nor the length-10
threshold on the text is guaranteed; a container whose rating chain yields
no positive value never contributes a Record. -/
theorem C2_record_fields (shop : String) (c : Container) (r : Record)
    (h : extract_single_review shop c = some r) :
    1 ≤ r.rating ∧ r.reviewer_name ≠ "" ∧ r.review_text ≠ "" := by
  unfold extract_single_review at h
  split at h
  · exact absurd h (by simp)
  · split_ifs at h with h1
    split at h
    · exact absurd h (by simp)
    · split_ifs at h with h2
      split at h
      · exact absurd h (by simp)
      · split_ifs at h with h3
        rw [Option.some_inj] at h
        subst h
        exact ⟨Nat.one_le_iff_ne_zero.mpr h2, h1, h3⟩

/-- Witness for C2: the theorem applied to a concrete container that
extracts to a concrete record. -/
theorem C2_record_fields_witness :
    1 ≤ goodRecord.rating ∧ goodRecord.reviewer_name ≠ "" ∧ goodRecord.review_text ≠ "" :=
  C2_record_fields "Cafe" goodContainer goodRecord rfl

/-- C2 counterexample: `extract_single_review` accepts a container whose
rating label parses to 6 ∉ \x7b1..5\x7d and whose review text has length
5 < 10 (the text chain fell through without any strategy passing the
length test). -/
theorem C2_counterexample :
    extract_single_review "Shop" badContainer = some badRecord ∧
      ¬ badRecord.rating ≤ 5 ∧ badRecord.review_text.length < 10 :=
  ⟨rfl, by decide, by decide⟩

/-- C7: failure of the date strategy alone never blocks acceptance — when
identity, rating and text resolve and the date lookup throws, the
container yields a Record whose date is the fixed "Recent" placeholder;
a container whose identity, rating or text chain resolves to a falsy
value yields no Record; and such a rejection does not abort the loop over
the remaining containers of the round. -/
theorem C7_date_not_fatal :
    (∀ (shop : String) (c : Container) (name : String) (k : Nat) (text : String),
        resolveName c = some name → name ≠ "" →
        resolveRating c = some k → k ≠ 0 →
        resolveText c = some text → text ≠ "" →
        c.dateText = none →
        extract_single_review shop c =
          some { reviewer_name := name, shop_name := shop, rating := k,
                 review_text := text, review_date := "Recent" }) ∧
    (∀ (shop : String) (c : Container),
        (resolveName c = none ∨ resolveName c = some "" ∨
            resolveRating c = none ∨ resolveRating c = some 0 ∨
            resolveText c = none ∨ resolveText c = some "") →
        extract_single_review shop c = none) ∧
    (∀ (shop : String) (c : Container) (rest : List Container) (n : Nat),
        extract_single_review shop c = none → n < 500 →
        extractLoop shop (c :: rest) n = extractLoop shop rest n) := by
  refine ⟨?_, ?_, ?_⟩
  · intro shop c name k text hn hne hk hk0 ht hte hd
    unfold extract_single_review
    rw [hn, hk, ht]
    simp [hne, hk0, hte, resolveDate, hd]
  · intro shop c hcase
    unfold extract_single_review
    split
    · rfl
    · rename_i name hn
      split_ifs with h1
      · rfl
      · split
        · rfl
        · rename_i k hk
          split_ifs with h2
          · rfl
          · split
            · rfl
            · rename_i t ht
              split_ifs with h3
              · rfl
              · exfalso
                rcases hcase with h | h | h | h | h | h <;> simp_all
  · intro shop c rest n hnone hlt
    have hstep : extractLoop shop (c :: rest) n =
        if 500 ≤ n then []
        else
          match extract_single_review shop c with
          | some r => r :: extractLoop shop rest (n + 1)
          | none => extractLoop shop rest n := rfl
    rw [hstep, if_neg (by omega), hnone]

/-- C9: if every business-identity strategy fails (the h1 lookup throws),
the business name recorded for the call is the fixed placeholder "Unknown
Business" and the scrape does not abort — record extraction continues
normally, returning the records extracted under the placeholder name. -/
theorem C9_placeholder_name (s : ScraperState) (env : ScrapeEnv) (url : String)
    (maxReviews : Nat) (hset : env.setup_ok = true) (hnav : env.nav_ok = true)
    (h1 : env.h1Text = none) (htab : env.tab_found = true) (hph : env.phase_ok = true) :
    (scrape_reviews s env url maxReviews).state.business_info =
        some { name := "Unknown Business", url := url } ∧
      returnedRecords (scrape_reviews s env url maxReviews) =
        (extract_all_reviews "Unknown Business" env.containers).take maxReviews := by
  rcases env with ⟨setup, nav, h1t, tab, phase, conts⟩
  subst hset hnav htab hph h1
  have hstate : (scrape_reviews s ⟨true, true, none, true, true, conts⟩ url maxReviews).state =
      (match (scrapeTry (clear_data s) ⟨true, true, none, true, true, conts⟩ url maxReviews).2.2 with
       | .ok _ => (scrapeTry (clear_data s) ⟨true, true, none, true, true, conts⟩ url maxReviews).1
       | .error e =>
           logMsg (scrapeTry (clear_data s) ⟨true, true, none, true, true, conts⟩ url maxReviews).1
             ("❌ Error: " ++ exnMsg e)) := rfl
  have hret : returnedRecords (scrape_reviews s ⟨true, true, none, true, true, conts⟩ url maxReviews) =
      handleExn (scrapeTry (clear_data s) ⟨true, true, none, true, true, conts⟩ url maxReviews).2.2 := rfl
  rw [hstate, hret]
  by_cases hempty : (extract_all_reviews "Unknown Business" conts).isEmpty
  · simp [scrapeTry, get_business_name, logMsg, handleExn, hempty,
      List.isEmpty_iff.mp hempty]
  · simp [scrapeTry, get_business_name, logMsg, handleExn, hempty]

/-- Witness for C9: the theorem applied to a concrete environment whose h1
lookup throws while one well-formed container is on the page. -/
theorem C9_placeholder_name_witness :
    (scrape_reviews initState noH1Env "u" 50).state.business_info =
        some { name := "Unknown Business", url := "u" } ∧
      returnedRecords (scrape_reviews initState noH1Env "u" 50) =
        (extract_all_reviews "Unknown Business" noH1Env.containers).take 50 :=
  C9_placeholder_name initState noH1Env "u" 50 rfl rfl rfl rfl rfl

/-- C3 (amended): `extract_all_reviews` is a single filtering pass, so each
container of the snapshot contributes at most one Record; the only
duplicate removal in the repository is `extract_reviews_direct`'s screen
position filter, which retains no two containers with the same location;
no identity+text dedupe key is ever computed, so Records sharing that key
can co-occur in one output. -/
theorem C3_dedup (shop : String) (cs : List Container) (ms : List MapsContainer) :
    (extract_all_reviews shop cs).length ≤ cs.length ∧
      ((uniqueByLocation ms []).map MapsContainer.location).Nodup :=
  ⟨extractLoop_le_containers shop cs 0, (uniqueByLocation_invariant ms []).1⟩

/-- C3 counterexample: two containers with identical content (two DOM nodes
rendering the same review) each contribute a Record, and the two Records
share the identity+text dedupe key — the output of one call is not
key-distinct. -/
theorem C3_counterexample :
    (extract_all_reviews "Shop" [dupContainer, dupContainer]).length = 2 ∧
      ¬ ((extract_all_reviews "Shop" [dupContainer, dupContainer]).map specDedupeKey).Nodup :=
  ⟨rfl, by decide⟩

/-- C4 (amended): the scroll loop executes at most
`min 60 (max 25 (max_reviews / 8))` rounds; a break happens only through
the two checks the code makes, in order — target count reached, or round
index above 15 with fewer than 10 reviews; on every non-final executed
round neither check held; and a page whose count stays constant at some
`c` with `10 ≤ c < max_reviews` runs the loop to the iteration cap — there
is no stability stop after K rounds without an increase. -/
theorem C4_stop_conditions (page : Nat → Nat) (maxReviews : Nat) :
    scroll_to_load_reviews page maxReviews ≤ maxScrolls maxReviews ∧
      (∀ j, j + 1 < scroll_to_load_reviews page maxReviews →
        ¬ scrollStops page maxReviews j) ∧
      (scroll_to_load_reviews page maxReviews < maxScrolls maxReviews →
        scrollStops page maxReviews (scroll_to_load_reviews page maxReviews - 1)) ∧
      (∀ c, 10 ≤ c → c < maxReviews →
        scroll_to_load_reviews (fun _ => c) maxReviews = maxScrolls maxReviews) := by
  obtain ⟨hle, hnostop, hstop⟩ :=
    scrollRoundsFrom_spec page maxReviews (maxScrolls maxReviews) 0
  refine ⟨hle, ?_, ?_, ?_⟩
  · intro j hj
    have := hnostop j hj
    simpa using this
  · intro hlt
    have := (hstop hlt).2
    simpa using this
  · intro c hc hcm
    obtain ⟨hle2, _, hstop2⟩ :=
      scrollRoundsFrom_spec (fun _ => c) maxReviews (maxScrolls maxReviews) 0
    by_contra hne
    have heq : scroll_to_load_reviews (fun _ => c) maxReviews =
        scrollRoundsFrom (fun _ => c) maxReviews (maxScrolls maxReviews) 0 := rfl
    rw [heq] at hne
    have hlt : scrollRoundsFrom (fun _ => c) maxReviews (maxScrolls maxReviews) 0 <
        maxScrolls maxReviews := lt_of_le_of_ne hle2 hne
    have hs := (hstop2 hlt).2
    unfold scrollStops at hs
    simp only at hs
    rcases hs with h | h
    · omega
    · omega

/-- C4 counterexample: with a page whose container count is pinned at 20
and 50 requested, no break check ever fires and the loop runs all 25
rounds; the claimed stability stop (K = 2 rounds without an increase, so
at most 3 rounds here) does not exist. -/
theorem C4_counterexample :
    scroll_to_load_reviews (fun _ => 20) 50 = 25 ∧
      ¬ scroll_to_load_reviews (fun _ => 20) 50 ≤ 3 :=
  ⟨rfl, by decide⟩

/-- C8 (amended): the CSV upload path stores the parsed rows verbatim and
hands exactly them to the downstream analysis collaborators, and the JSON
load path maps every review to a row using only `dict.get` defaults — no
rating-range or non-empty-text invariant is checked on either path. -/
theorem C8_no_validation (rows : List CsvRow) (reviews : List ReviewJson)
    (bn bu : String) :
    (upload_csv rows).df = some rows ∧
      ((load_json_data reviews bn bu).1).df = some (reviews.map (jsonRow bn bu)) :=
  ⟨rfl, rfl⟩

/-- C8 counterexample: a CSV row with rating 7 and empty review text is
stored untouched by `upload_csv` and is exactly what the downstream
endpoints will read. -/
theorem C8_counterexample :
    (upload_csv [invalidRow]).df = some [invalidRow] ∧
      ¬ (1 ≤ invalidRow.stars ∧ invalidRow.stars ≤ 5 ∧ invalidRow.text ≠ "") :=
  ⟨rfl, by decide⟩

end GoogleReviews
